import Mathlib

/-!
Verification of the launchpad_mini_control library: a shallow embedding of
the coordinate/wire-message codec (`src/utils/mat_pos.rs`,
`src/utils/pad_identifier.rs`, `src/utils/misc.rs`) and of the stateful
device controller (`src/launch_device.rs`), with theorems settling the
specified properties.  Machine bytes (`u8`) are modelled as `Nat` with an
explicit `% 256` wherever the Rust arithmetic can wrap.
-/

/-- The 3-byte wire unit exchanged with the device (`LaunchMessage` in
`midilib.rs`); each field is a `u8`. -/
structure LaunchMessage where
  status : Nat
  data1 : Nat
  data2 : Nat
deriving Repr, DecidableEq, Inhabited

/-- Message class (`MessageType` in `utils/misc.rs`). -/
inductive MessageType where
  | Off
  | On
  | Ctl
deriving Repr, DecidableEq

/-- The discriminant bytes of the Rust `MessageType` enum
(`Off = 0x80, On = 0x90, Ctl = 0xb0`). -/
def MessageType.toByte : MessageType → Nat
  | .Off => 0x80
  | .On => 0x90
  | .Ctl => 0xb0

/-- The 16-color palette (`Color` in `utils/misc.rs`). -/
inductive Color where
  | Black | DimGreen | MedGreen | Green
  | Grellow | DimGrellow | Yellow | MedYellow
  | DimYellow | YellOrange | Orange | DimORedange
  | ORedange | Red | MedRed | DimRed
deriving Repr, DecidableEq

/-- The discriminant bytes of the Rust `Color` enum. -/
def Color.toByte : Color → Nat
  | .Black => 0x00
  | .DimGreen => 0x10
  | .MedGreen => 0x20
  | .Green => 0x30
  | .Grellow => 0x31
  | .DimGrellow => 0x21
  | .Yellow => 0x32
  | .MedYellow => 0x22
  | .DimYellow => 0x11
  | .YellOrange => 0x33
  | .Orange => 0x23
  | .DimORedange => 0x12
  | .ORedange => 0x13
  | .Red => 0x03
  | .MedRed => 0x02
  | .DimRed => 0x01

/-- Buffer modes (`BufferSetting` in `utils/misc.rs`). -/
inductive BufferSetting where
  | ZeroOnly
  | OneActive
  | ZeroActive
  | OneOnly
deriving Repr, DecidableEq

/-- The discriminant bytes of the Rust `BufferSetting` enum. -/
def BufferSetting.toByte : BufferSetting → Nat
  | .ZeroOnly => 0x00
  | .OneActive => 0x01
  | .ZeroActive => 0x04
  | .OneOnly => 0x05

/-- Grid layout modes (`GridMode` in `utils/misc.rs`). -/
inductive GridMode where
  | XY
  | DrumRack
deriving Repr, DecidableEq

/-- The discriminant bytes of the Rust `GridMode` enum. -/
def GridMode.toByte : GridMode → Nat
  | .XY => 0x01
  | .DrumRack => 0x02

/-- Logical matrix coordinate (`MatPos` in `utils/mat_pos.rs`); both fields
are `u8`. -/
structure MatPos where
  row : Nat
  col : Nat
deriving Repr, DecidableEq

/-- Intermediate wire identifier (`PadIdentifier` in
`utils/pad_identifier.rs`). -/
structure PadIdentifier where
  status : MessageType
  key : Nat
deriving Repr, DecidableEq

/-- `impl From<MatPos> for PadIdentifier` (`utils/pad_identifier.rs`):
row > 7 encodes to a Control identifier with key `0x68 + col`, otherwise a
NoteOn identifier with key `0x10*row + col` (u8 arithmetic). -/
def PadIdentifier.fromMatPos (pos : MatPos) : PadIdentifier :=
  if pos.row > 7 then
    ⟨.Ctl, (0x68 + pos.col) % 256⟩
  else
    ⟨.On, (0x10 * pos.row % 256 + pos.col) % 256⟩

/-- `impl From<LaunchMessage> for PadIdentifier` (`utils/pad_identifier.rs`):
classify the status byte against `0xb0` then `0x90`, falling back to `Off`;
the key is `data1`. -/
def PadIdentifier.fromMessage (msg : LaunchMessage) : PadIdentifier :=
  if msg.status = MessageType.Ctl.toByte then
    ⟨.Ctl, msg.data1⟩
  else if msg.status = MessageType.On.toByte then
    ⟨.On, msg.data1⟩
  else
    ⟨.Off, msg.data1⟩

/-- `impl From<PadIdentifier> for MatPos` (`utils/mat_pos.rs`): a Control
identifier decodes to row 8 with `col = key % 0x68`; anything else decodes
to `row = key / 0x10, col = key % 0x10`. -/
def MatPos.fromPadIdentifier (padid : PadIdentifier) : MatPos :=
  if padid.status = MessageType.Ctl then
    ⟨8, padid.key % 0x68⟩
  else
    ⟨padid.key / 0x10, padid.key % 0x10⟩

/-- `impl From<LaunchMessage> for MatPos` (`utils/mat_pos.rs`). -/
def MatPos.fromMessage (msg : LaunchMessage) : MatPos :=
  MatPos.fromPadIdentifier (PadIdentifier.fromMessage msg)

/-- `impl From<MatPos> for Key` (`utils/misc.rs`): row > 7 yields the fixed
sentinel key 121; otherwise the `PadIdentifier` key. -/
def Key.fromMatPos (pos : MatPos) : Nat :=
  if pos.row > 7 then 121 else (PadIdentifier.fromMatPos pos).key

/-- `MatPos::new` (`utils/mat_pos.rs`). -/
def MatPos.new (row col : Nat) : MatPos := ⟨row, col⟩

/-- Transport-level errors (`MidiInterfaceError` in `midilib.rs`); the
claims only need the fact that a write can fail, so a single constructor
stands for whichever variant the backend raises. -/
inductive MidiErr where
  | backend
deriving Repr, DecidableEq

/-- The observable state of a `LaunchDevice` (`launch_device.rs`): the
stored `buffer_setting` byte plus the trace of wire messages written to the
output port so far. -/
structure LaunchDevice where
  buffer_setting : Nat
  sent : List LaunchMessage
deriving Repr, DecidableEq

/-- `LaunchDevice::new`: `buffer_setting` starts at 0 and nothing has been
written yet. -/
def LaunchDevice.new : LaunchDevice := ⟨0, []⟩

/-- The `write_message` capability of the output port (`midilib.rs` `Output` trait),
parametrised by an oracle `wf` deciding which writes the backend accepts.
An accepted message is appended to the trace; a rejected one returns the
transport error and sends nothing. -/
def writeMessage (wf : LaunchMessage → Bool) (msg : LaunchMessage)
    (s : LaunchDevice) : LaunchDevice × Except MidiErr Unit :=
  if wf msg then ({ s with sent := s.sent ++ [msg] }, .ok ())
  else (s, .error .backend)

/-- The `write_messages` capability of the output port: the batch is sent as a unit, so it
either lands entirely in the trace or fails as a whole. -/
def writeMessages (wf : LaunchMessage → Bool) (msgs : List LaunchMessage)
    (s : LaunchDevice) : LaunchDevice × Except MidiErr Unit :=
  if msgs.all wf then ({ s with sent := s.sent ++ msgs }, .ok ())
  else (s, .error .backend)

namespace LaunchDevice

/-- `LaunchDevice::poll`: forwards the answer of the input port, touching no
device state (`&self` in Rust). -/
def poll (resp : Except MidiErr Bool) (s : LaunchDevice) :
    LaunchDevice × Except MidiErr Bool :=
  (s, resp)

/-- `LaunchDevice::read_n_msgs`: forwards the `read_n`
answer of the input port, touching no device state (`&self` in Rust). -/
def read_n_msgs (resp : Except MidiErr (Option (List LaunchMessage)))
    (s : LaunchDevice) :
    LaunchDevice × Except MidiErr (Option (List LaunchMessage)) :=
  (s, resp)

/-- `LaunchDevice::read_single_msg`: calls `read_n(1)` and extracts the
first message of the batch, if any (`&self` in Rust). -/
def read_single_msg (resp : Except MidiErr (Option (List LaunchMessage)))
    (s : LaunchDevice) :
    LaunchDevice × Except MidiErr (Option LaunchMessage) :=
  match resp with
  | .error e => (s, .error e)
  | .ok none => (s, .ok none)
  | .ok (some msgs) =>
    match msgs.head? with
    | none => (s, .ok none)
    | some m => (s, .ok (some m))

/-- `LaunchDevice::is_double_buffered`: the low nibble of the stored byte
equals `OneActive` or `ZeroActive`. -/
def is_double_buffered (s : LaunchDevice) : Bool :=
  let buffered := 0x0F &&& s.buffer_setting
  buffered = BufferSetting.OneActive.toByte ∨
    buffered = BufferSetting.ZeroActive.toByte

/-- `LaunchDevice::send_note_msg`: OR `0x0C` into the velocity when not
double-buffered, pick the On/Off status byte, and write one message. -/
def send_note_msg (wf : LaunchMessage → Bool) (isOn : Bool) (key vel : Nat)
    (s : LaunchDevice) : LaunchDevice × Except MidiErr Unit :=
  let vel := if ¬ s.is_double_buffered then vel ||| 0x0C else vel
  let mtype := if isOn then MessageType.On.toByte else MessageType.Off.toByte
  writeMessage wf ⟨mtype, key, vel⟩ s

/-- `LaunchDevice::send_messages`. -/
def send_messages (wf : LaunchMessage → Bool) (msgs : List LaunchMessage)
    (s : LaunchDevice) : LaunchDevice × Except MidiErr Unit :=
  writeMessages wf msgs s

/-- `LaunchDevice::send_ctl_msg`: one message with status `0xb0`. -/
def send_ctl_msg (wf : LaunchMessage → Bool) (data1 data2 : Nat)
    (s : LaunchDevice) : LaunchDevice × Except MidiErr Unit :=
  writeMessage wf ⟨0xb0, data1, data2⟩ s

/-- `LaunchDevice::set_position`: one message with status `0x90`, key from
`Key::from(MatPos::new(row, col))`, payload the color byte. -/
def set_position (wf : LaunchMessage → Bool) (row col : Nat) (color : Color)
    (s : LaunchDevice) : LaunchDevice × Except MidiErr Unit :=
  writeMessage wf ⟨0x90, Key.fromMatPos (MatPos.new row col), color.toByte⟩ s

/-- The batch built by `LaunchDevice::set_all`: `cartesian!(0..8, 0..9)`
iterates the first range as the outer loop, so rows 0–7 outer, columns 0–8
inner. -/
def set_all_msgs (color : Color) : List LaunchMessage :=
  (List.range 8).flatMap fun x =>
    (List.range 9).map fun y =>
      ⟨MessageType.On.toByte, Key.fromMatPos (MatPos.new x y), color.toByte⟩

/-- `LaunchDevice::set_all`: write the 72-message batch. -/
def set_all (wf : LaunchMessage → Bool) (color : Color) (s : LaunchDevice) :
    LaunchDevice × Except MidiErr Unit :=
  writeMessages wf (set_all_msgs color) s

/-- `LaunchDevice::blackout`: `set_all(Black)`. -/
def blackout (wf : LaunchMessage → Bool) (s : LaunchDevice) :
    LaunchDevice × Except MidiErr Unit :=
  set_all wf .Black s

/-- The `?`-style sequencing of the `for` loop in
`LaunchDevice::full_blackout`: stop at the first failing control write. -/
def ctl_loop (wf : LaunchMessage → Bool) (idxs : List Nat)
    (acc : LaunchDevice × Except MidiErr Unit) :
    LaunchDevice × Except MidiErr Unit :=
  idxs.foldl (fun acc i =>
    match acc with
    | (st, .error e) => (st, .error e)
    | (st, .ok _) => send_ctl_msg wf (0x68 + i) Color.Black.toByte st) acc

/-- `LaunchDevice::full_blackout`: `set_all(Black)` then zero the eight
control-row buttons. -/
def full_blackout (wf : LaunchMessage → Bool) (s : LaunchDevice) :
    LaunchDevice × Except MidiErr Unit :=
  match set_all wf .Black s with
  | (s1, .error e) => (s1, .error e)
  | (s1, .ok _) => ctl_loop wf (List.range 8) (s1, .ok ())

/-- `LaunchDevice::select_mode`: control message `{0xB0, 0x00, mode}`. -/
def select_mode (wf : LaunchMessage → Bool) (mode : GridMode)
    (s : LaunchDevice) : LaunchDevice × Except MidiErr Unit :=
  send_ctl_msg wf 0x00 mode.toByte s

/-- The batch built by `LaunchDevice::set_matrix` from an 8×9 matrix of
colors (row-major, status `0x90`). -/
def set_matrix_msgs (mat : Nat → Nat → Color) : List LaunchMessage :=
  (List.range 8).flatMap fun i =>
    (List.range 9).map fun j =>
      ⟨0x90, Key.fromMatPos (MatPos.new i j), (mat i j).toByte⟩

/-- `LaunchDevice::set_matrix`: write the matrix batch. -/
def set_matrix (wf : LaunchMessage → Bool) (mat : Nat → Nat → Color)
    (s : LaunchDevice) : LaunchDevice × Except MidiErr Unit :=
  writeMessages wf (set_matrix_msgs mat) s

/-- `LaunchDevice::set_first_row`: eight control messages with keys
`0x68..0x6F`, written as one batch. -/
def set_first_row (wf : LaunchMessage → Bool) (color : Color)
    (s : LaunchDevice) : LaunchDevice × Except MidiErr Unit :=
  writeMessages wf
    ((List.range 8).map fun i => ⟨0xb0, 0x68 + i, color.toByte⟩) s

/-- `LaunchDevice::reset`: control message `{0xB0, 0x00, 0x00}`. -/
def reset (wf : LaunchMessage → Bool) (s : LaunchDevice) :
    LaunchDevice × Except MidiErr Unit :=
  send_ctl_msg wf 0x00 0x00 s

/-- `LaunchDevice::set_buffer_mode`: store
`(copy ? 0x30 : 0x20) | setting` in `buffer_setting` FIRST, then send it as
a control message; a transport failure leaves the new byte in place. -/
def set_buffer_mode (wf : LaunchMessage → Bool) (setting : BufferSetting)
    (copy : Bool) (s : LaunchDevice) : LaunchDevice × Except MidiErr Unit :=
  let base := if copy then 0x30 else 0x20
  let s := { s with buffer_setting := base ||| setting.toByte }
  send_ctl_msg wf 0x00 s.buffer_setting s

/-- `LaunchDevice::disable_double_buffering`:
`set_buffer_mode(ZeroOnly, false)`. -/
def disable_double_buffering (wf : LaunchMessage → Bool) (s : LaunchDevice) :
    LaunchDevice × Except MidiErr Unit :=
  set_buffer_mode wf .ZeroOnly false s

/-- `LaunchDevice::swap_buffers`: look at the low nibble of the stored
byte; `OneActive` switches to `ZeroActive`, anything else to `OneActive`,
with the given copy flag. -/
def swap_buffers (wf : LaunchMessage → Bool) (copy : Bool)
    (s : LaunchDevice) : LaunchDevice × Except MidiErr Unit :=
  let setting := s.buffer_setting &&& 0x0F
  if setting = BufferSetting.OneActive.toByte then
    set_buffer_mode wf .ZeroActive copy s
  else
    set_buffer_mode wf .OneActive copy s

/-- `LaunchDevice::hard_swap`: `swap_buffers(false)`. -/
def hard_swap (wf : LaunchMessage → Bool) (s : LaunchDevice) :
    LaunchDevice × Except MidiErr Unit :=
  swap_buffers wf false s

/-- `LaunchDevice::set_duty_cycle`: clamp numerator to `[1,16]` and
denominator to `[3,18]`, then pack the ratio into one control message.
The Rust code computes the `numerator ≥ 9` packing unconditionally (with
wrapping u8 arithmetic, hence the `% 256`s) and overwrites it in the
`numerator < 9` branch. -/
def set_duty_cycle (wf : LaunchMessage → Bool) (numerator denominator : Nat)
    (s : LaunchDevice) : LaunchDevice × Except MidiErr Unit :=
  let numerator :=
    if numerator > 16 then 16 else if numerator < 1 then 1 else numerator
  let denominator :=
    if denominator > 18 then 18 else if denominator < 3 then 3 else denominator
  let data1 := 0x1f
  let data2 :=
    (0x10 * ((numerator + 256 - 9) % 256) % 256 + (denominator - 3)) % 256
  if numerator < 9 then
    writeMessage wf
      ⟨0xb0, 0x1e,
        (0x10 * ((numerator + 256 - 1) % 256) % 256 + (denominator - 3)) % 256⟩
      s
  else
    writeMessage wf ⟨0xb0, data1, data2⟩ s

end LaunchDevice

/-! ## Theorems -/

/-- C1: Control-row round trip through the write path of the device.  The code
FAILS this: `set_position(8, col, color)` emits status `0x90` with the
sentinel key 121 (`Key::from`), which decodes to `(7, 9)`, not `(8, col)`.
Evaluated here at `col = 0`. -/
theorem control_round_trip_code_bug :
    (LaunchDevice.set_position (fun _ => true) 8 0 Color.Black
        LaunchDevice.new).1.sent =
      [⟨0x90, Key.fromMatPos (MatPos.new 8 0), Color.Black.toByte⟩] ∧
    Key.fromMatPos (MatPos.new 8 0) = 121 ∧
    MatPos.fromMessage ⟨0x90, Key.fromMatPos (MatPos.new 8 0),
        Color.Black.toByte⟩ = MatPos.new 7 9 ∧
    MatPos.new 7 9 ≠ MatPos.new 8 0 := by
  refine ⟨rfl, rfl, rfl, ?_⟩
  decide

/-- C2: Canonical control-row key.  The code FAILS this: for row 8 the key
byte emitted as `data1` is the fixed sentinel 121 for every column
(`Key::from` in `utils/misc.rs`), not `0x68 + col`. -/
theorem control_key_sentinel_code_bug :
    (∀ col : Fin 8, Key.fromMatPos (MatPos.new 8 col.val) = 121) ∧
    Key.fromMatPos (MatPos.new 8 3) ≠ 0x68 + 3 := by
  decide

/-- C3: Control-row decode by exact subtraction.  The code FAILS this:
`MatPos::from<PadIdentifier>` computes `col = key % 0x68`, which differs
from `key − 0x68` at `key = 0xD0` (modulo gives 0, subtraction gives
0x68). -/
theorem control_decode_modulo_code_bug :
    MatPos.fromPadIdentifier ⟨.Ctl, 0xD0⟩ = MatPos.new 8 (0xD0 % 0x68) ∧
    0xD0 % 0x68 = 0 ∧
    0xD0 - 0x68 = 0x68 ∧
    MatPos.fromPadIdentifier ⟨.Ctl, 0xD0⟩ ≠ MatPos.new 8 (0xD0 - 0x68) := by
  decide

/-- C4: Note-grid round trip.  For row ∈ [0,7] and col ∈ [0,8],
`set_position` emits status `0x90` with key `0x10*row + col`, and decoding
that message through `PadIdentifier` and `MatPos` returns exactly
`(row, col)`. -/
theorem note_grid_round_trip (row col : Nat) (color : Color)
    (s : LaunchDevice) (hrow : row ≤ 7) (hcol : col ≤ 8) :
    (LaunchDevice.set_position (fun _ => true) row col color s).1.sent =
      s.sent ++ [⟨0x90, (PadIdentifier.fromMatPos (MatPos.new row col)).key,
        color.toByte⟩] ∧
    (PadIdentifier.fromMatPos (MatPos.new row col)).key = 0x10 * row + col ∧
    MatPos.fromMessage ⟨0x90,
        (PadIdentifier.fromMatPos (MatPos.new row col)).key, color.toByte⟩ =
      MatPos.new row col := by
  have hnot : ¬ (MatPos.new row col).row > 7 := by
    show ¬ row > 7
    omega
  have hkey : (PadIdentifier.fromMatPos (MatPos.new row col)).key =
      0x10 * row + col := by
    unfold PadIdentifier.fromMatPos
    rw [if_neg hnot]
    show (0x10 * row % 256 + col) % 256 = 0x10 * row + col
    omega
  refine ⟨?_, hkey, ?_⟩
  · simp [LaunchDevice.set_position, writeMessage, Key.fromMatPos, hnot]
  · rw [hkey]
    unfold MatPos.fromMessage PadIdentifier.fromMessage
    rw [if_neg (by simp [MessageType.toByte]), if_pos (by simp [MessageType.toByte])]
    unfold MatPos.fromPadIdentifier
    rw [if_neg (by simp)]
    simp only [MatPos.new, MatPos.mk.injEq]
    constructor <;> omega

/-- Witness for `note_grid_round_trip` at row 3, col 5. -/
theorem note_grid_round_trip_witness :
    (LaunchDevice.set_position (fun _ => true) 3 5 Color.Green
        LaunchDevice.new).1.sent =
      LaunchDevice.new.sent ++ [⟨0x90,
        (PadIdentifier.fromMatPos (MatPos.new 3 5)).key, Color.Green.toByte⟩] ∧
    (PadIdentifier.fromMatPos (MatPos.new 3 5)).key = 0x10 * 3 + 5 ∧
    MatPos.fromMessage ⟨0x90, (PadIdentifier.fromMatPos (MatPos.new 3 5)).key,
        Color.Green.toByte⟩ = MatPos.new 3 5 :=
  note_grid_round_trip 3 5 Color.Green LaunchDevice.new (by decide) (by decide)

/-- C5: Duty-cycle clamping and packing.  The message sent by
`set_duty_cycle` uses the clamped numerator (to [1,16]) and denominator
(to [3,18]): `{0xB0, 0x1E, 16*(n−1)+(d−3)}` when the clamped numerator is
below 9, else `{0xB0, 0x1F, 16*(n−9)+(d−3)}`; in particular `(0,2)` sends
the same message as `(1,3)`, `(20,30)` the same as `(16,18)`, `(9,3)`
gives `data1 = 0x1F, data2 = 0`, and `(1,3)` gives `data1 = 0x1E,
data2 = 0`. -/
theorem set_duty_cycle_spec (numerator denominator : Nat) (s : LaunchDevice) :
    (LaunchDevice.set_duty_cycle (fun _ => true) numerator denominator
        s).1.sent =
      s.sent ++
        [⟨0xb0,
          if min 16 (max 1 numerator) < 9 then 0x1e else 0x1f,
          if min 16 (max 1 numerator) < 9 then
            0x10 * (min 16 (max 1 numerator) - 1) +
              (min 18 (max 3 denominator) - 3)
          else
            0x10 * (min 16 (max 1 numerator) - 9) +
              (min 18 (max 3 denominator) - 3)⟩] ∧
    (LaunchDevice.set_duty_cycle (fun _ => true) 0 2 s).1.sent =
      (LaunchDevice.set_duty_cycle (fun _ => true) 1 3 s).1.sent ∧
    (LaunchDevice.set_duty_cycle (fun _ => true) 20 30 s).1.sent =
      (LaunchDevice.set_duty_cycle (fun _ => true) 16 18 s).1.sent ∧
    (LaunchDevice.set_duty_cycle (fun _ => true) 9 3 s).1.sent =
      s.sent ++ [⟨0xb0, 0x1f, 0x00⟩] ∧
    (LaunchDevice.set_duty_cycle (fun _ => true) 1 3 s).1.sent =
      s.sent ++ [⟨0xb0, 0x1e, 0x00⟩] := by
  refine ⟨?_, rfl, rfl, rfl, rfl⟩
  simp only [LaunchDevice.set_duty_cycle, writeMessage]
  norm_num
  split_ifs <;>
    simp only [List.append_right_inj, List.cons.injEq, and_true,
      LaunchMessage.mk.injEq, true_and] <;>
    omega

/-- A transport write never touches the stored buffer byte. -/
theorem writeMessage_buffer_setting (wf : LaunchMessage → Bool)
    (msg : LaunchMessage) (s : LaunchDevice) :
    (writeMessage wf msg s).1.buffer_setting = s.buffer_setting := by
  unfold writeMessage
  split <;> rfl

/-- A batch write never touches the stored buffer byte. -/
theorem writeMessages_buffer_setting (wf : LaunchMessage → Bool)
    (msgs : List LaunchMessage) (s : LaunchDevice) :
    (writeMessages wf msgs s).1.buffer_setting = s.buffer_setting := by
  unfold writeMessages
  split <;> rfl

/-- The buffer byte stored by `set_buffer_mode`, whether or not the
transport write goes through. -/
theorem set_buffer_mode_buffer_setting (wf : LaunchMessage → Bool)
    (setting : BufferSetting) (copy : Bool) (s : LaunchDevice) :
    (LaunchDevice.set_buffer_mode wf setting copy s).1.buffer_setting =
      (if copy then 0x30 else 0x20) ||| setting.toByte := by
  simp only [LaunchDevice.set_buffer_mode, LaunchDevice.send_ctl_msg]
  rw [writeMessage_buffer_setting]

/-- C6: Buffer-swap transition.  `swap_buffers(copy)` flips the low nibble
of the stored byte — `OneActive` (0x01) becomes `ZeroActive` (0x04), every
other value becomes `OneActive` — and the high nibble of the new byte is
0x30 when `copy` is set, 0x20 otherwise; in particular from a fresh device,
`set_buffer_mode(OneActive, false)` then `swap_buffers(true)` leaves low
nibble `ZeroActive` and high nibble 0x30. -/
theorem swap_buffers_transition (wf : LaunchMessage → Bool) (copy : Bool)
    (s : LaunchDevice) :
    ((LaunchDevice.swap_buffers wf copy s).1.buffer_setting &&& 0x0F =
      if s.buffer_setting &&& 0x0F = BufferSetting.OneActive.toByte then
        BufferSetting.ZeroActive.toByte
      else BufferSetting.OneActive.toByte) ∧
    ((LaunchDevice.swap_buffers wf copy s).1.buffer_setting &&& 0xF0 =
      if copy then 0x30 else 0x20) ∧
    ((LaunchDevice.swap_buffers (fun _ => true) true
        (LaunchDevice.set_buffer_mode (fun _ => true) .OneActive false
          LaunchDevice.new).1).1.buffer_setting &&& 0x0F =
      BufferSetting.ZeroActive.toByte) ∧
    ((LaunchDevice.swap_buffers (fun _ => true) true
        (LaunchDevice.set_buffer_mode (fun _ => true) .OneActive false
          LaunchDevice.new).1).1.buffer_setting &&& 0xF0 = 0x30) := by
  refine ⟨?_, ?_, by decide, by decide⟩ <;>
  · simp only [LaunchDevice.swap_buffers]
    split_ifs <;> rw [set_buffer_mode_buffer_setting] <;> split_ifs <;> decide

/-- C7: Velocity-bit forcing.  `send_note_msg` ORs 0x0C into the outgoing
velocity exactly when `is_double_buffered()` is false, where
`is_double_buffered()` holds iff the low nibble of the stored byte is
`OneActive` (0x01) or `ZeroActive` (0x04); a state with low nibble
`ZeroOnly` forces the bits, one with low nibble `OneActive` leaves the
velocity untouched. -/
theorem send_note_msg_velocity (isOn : Bool) (key vel : Nat)
    (s : LaunchDevice) :
    (LaunchDevice.send_note_msg (fun _ => true) isOn key vel s).1.sent =
      s.sent ++ [⟨if isOn then 0x90 else 0x80, key,
        if s.is_double_buffered then vel else vel ||| 0x0C⟩] ∧
    (s.is_double_buffered ↔
      (0x0F &&& s.buffer_setting = BufferSetting.OneActive.toByte ∨
        0x0F &&& s.buffer_setting = BufferSetting.ZeroActive.toByte)) ∧
    (LaunchDevice.send_note_msg (fun _ => true) true key vel
        ⟨0x20, []⟩).1.sent = [⟨0x90, key, vel ||| 0x0C⟩] ∧
    (LaunchDevice.send_note_msg (fun _ => true) true key vel
        ⟨0x21, []⟩).1.sent = [⟨0x90, key, vel⟩] := by
  refine ⟨?_, ?_, ?_, ?_⟩
  · unfold LaunchDevice.send_note_msg writeMessage MessageType.toByte
    by_cases h : s.is_double_buffered <;> simp [h]
  · simp [LaunchDevice.is_double_buffered]
  · have h : (0x0F &&& 0x20 : Nat) = 0 := by decide
    simp [LaunchDevice.send_note_msg, writeMessage,
      LaunchDevice.is_double_buffered, BufferSetting.toByte,
      MessageType.toByte, h]
  · have h : (0x0F &&& 0x21 : Nat) = 1 := by decide
    simp [LaunchDevice.send_note_msg, writeMessage,
      LaunchDevice.is_double_buffered, BufferSetting.toByte,
      MessageType.toByte, h]

/-- The `set_all` batch in closed row-major form: entry `i` addresses row
`i / 9`, column `i % 9`. -/
theorem set_all_msgs_closed_form (c : Color) :
    LaunchDevice.set_all_msgs c =
      (List.range 72).map fun i =>
        ⟨0x90, 0x10 * (i / 9) + i % 9, c.toByte⟩ := by
  rfl

/-- C8: `set_all(color)` emits exactly 72 messages, one per `(row, col)`
with row ∈ [0,7] and col ∈ [0,8] in row-major order (message `i` is row
`i / 9`, column `i % 9`, with key `0x10*row + col`), each with status
NoteOn (0x90) and payload the color byte. -/
theorem set_all_emission (color : Color) (s : LaunchDevice) :
    (LaunchDevice.set_all (fun _ => true) color s).1.sent =
      s.sent ++ LaunchDevice.set_all_msgs color ∧
    (LaunchDevice.set_all_msgs color).length = 72 ∧
    ∀ i, i < 72 →
      (LaunchDevice.set_all_msgs color).getD i default =
        ⟨0x90, 0x10 * (i / 9) + i % 9, color.toByte⟩ := by
  refine ⟨?_, ?_, ?_⟩
  · simp [LaunchDevice.set_all, writeMessages]
  · rw [set_all_msgs_closed_form]
    simp
  · intro i hi
    rw [set_all_msgs_closed_form]
    rw [List.getD_eq_getElem?_getD, List.getElem?_map, List.getElem?_range hi]
    rfl

/-- Witness for `set_all_emission` at color Red, index 10. -/
theorem set_all_emission_witness :
    (LaunchDevice.set_all_msgs Color.Red).getD 10 default =
      ⟨0x90, 0x10 * (10 / 9) + 10 % 9, Color.Red.toByte⟩ :=
  (set_all_emission Color.Red LaunchDevice.new).2.2 10 (by decide)

/-- The control-row loop of `full_blackout` never touches the stored
buffer byte. -/
theorem ctl_loop_buffer_setting (wf : LaunchMessage → Bool)
    (idxs : List Nat) :
    ∀ acc : LaunchDevice × Except MidiErr Unit,
      (LaunchDevice.ctl_loop wf idxs acc).1.buffer_setting =
        acc.1.buffer_setting := by
  induction idxs with
  | nil => intro acc; rfl
  | cons i rest ih =>
    intro acc
    unfold LaunchDevice.ctl_loop at ih ⊢
    simp only [List.foldl_cons]
    rw [ih]
    rcases acc with ⟨st, e⟩
    cases e with
    | error e => rfl
    | ok u =>
      simp only [LaunchDevice.send_ctl_msg]
      rw [writeMessage_buffer_setting]

/-- C9: Buffer-byte frame condition.  The stored buffer byte is 0 at
construction, and every controller operation other than the four
buffer-mode commands — in particular `reset`, `set_position`, `set_all`,
`set_matrix`, `set_first_row`, `blackout`, `full_blackout`, `select_mode`,
`set_duty_cycle`, `send_note_msg` and the read-side operations — leaves
it unchanged. -/
theorem buffer_setting_frame :
    LaunchDevice.new.buffer_setting = 0 ∧
    (∀ wf s, (LaunchDevice.reset wf s).1.buffer_setting =
      s.buffer_setting) ∧
    (∀ wf row col color s,
      (LaunchDevice.set_position wf row col color s).1.buffer_setting =
        s.buffer_setting) ∧
    (∀ wf color s, (LaunchDevice.set_all wf color s).1.buffer_setting =
      s.buffer_setting) ∧
    (∀ wf mat s, (LaunchDevice.set_matrix wf mat s).1.buffer_setting =
      s.buffer_setting) ∧
    (∀ wf color s,
      (LaunchDevice.set_first_row wf color s).1.buffer_setting =
        s.buffer_setting) ∧
    (∀ wf s, (LaunchDevice.blackout wf s).1.buffer_setting =
      s.buffer_setting) ∧
    (∀ wf s, (LaunchDevice.full_blackout wf s).1.buffer_setting =
      s.buffer_setting) ∧
    (∀ wf mode s, (LaunchDevice.select_mode wf mode s).1.buffer_setting =
      s.buffer_setting) ∧
    (∀ wf n d s,
      (LaunchDevice.set_duty_cycle wf n d s).1.buffer_setting =
        s.buffer_setting) ∧
    (∀ wf isOn key vel s,
      (LaunchDevice.send_note_msg wf isOn key vel s).1.buffer_setting =
        s.buffer_setting) ∧
    (∀ wf msgs s, (LaunchDevice.send_messages wf msgs s).1.buffer_setting =
      s.buffer_setting) ∧
    (∀ wf d1 d2 s, (LaunchDevice.send_ctl_msg wf d1 d2 s).1.buffer_setting =
      s.buffer_setting) ∧
    (∀ resp s, (LaunchDevice.poll resp s).1 = s) ∧
    (∀ resp s, (LaunchDevice.read_single_msg resp s).1 = s) ∧
    (∀ resp s, (LaunchDevice.read_n_msgs resp s).1 = s) := by
  refine ⟨rfl, ?_, ?_, ?_, ?_, ?_, ?_, ?_, ?_, ?_, ?_, ?_, ?_, ?_, ?_, ?_⟩
  · intro wf s
    exact writeMessage_buffer_setting wf _ s
  · intro wf row col color s
    exact writeMessage_buffer_setting wf _ s
  · intro wf color s
    exact writeMessages_buffer_setting wf _ s
  · intro wf mat s
    exact writeMessages_buffer_setting wf _ s
  · intro wf color s
    exact writeMessages_buffer_setting wf _ s
  · intro wf s
    exact writeMessages_buffer_setting wf _ s
  · intro wf s
    unfold LaunchDevice.full_blackout
    split
    · next s1 e heq =>
      have := writeMessages_buffer_setting wf (LaunchDevice.set_all_msgs .Black) s
      simp only [LaunchDevice.set_all] at heq
      rw [heq] at this
      exact this
    · next s1 u heq =>
      rw [ctl_loop_buffer_setting]
      have := writeMessages_buffer_setting wf (LaunchDevice.set_all_msgs .Black) s
      simp only [LaunchDevice.set_all] at heq
      rw [heq] at this
      exact this
  · intro wf mode s
    exact writeMessage_buffer_setting wf _ s
  · intro wf n d s
    simp only [LaunchDevice.set_duty_cycle]
    split_ifs <;> exact writeMessage_buffer_setting wf _ s
  · intro wf isOn key vel s
    exact writeMessage_buffer_setting wf _ s
  · intro wf msgs s
    exact writeMessages_buffer_setting wf _ s
  · intro wf d1 d2 s
    exact writeMessage_buffer_setting wf _ s
  · intro resp s
    rfl
  · intro resp s
    rcases resp with e | o
    · rfl
    · rcases o with _ | msgs
      · rfl
      · unfold LaunchDevice.read_single_msg
        rcases msgs with _ | ⟨m, rest⟩ <;> rfl
  · intro resp s
    rfl

/-- C10: No rollback on a failed buffer-mode change.  `set_buffer_mode`
stores the new buffer byte before the transport write, so when the write is
rejected the call returns the error while the stored byte already holds the
new value (nothing was sent), and `is_double_buffered` and `swap_buffers`
afterwards behave exactly as they would had the write succeeded. -/
theorem set_buffer_mode_no_rollback (wf : LaunchMessage → Bool)
    (setting : BufferSetting) (copy : Bool) (s : LaunchDevice)
    (hfail : wf ⟨0xb0, 0x00,
      (if copy then 0x30 else 0x20) ||| setting.toByte⟩ = false) :
    (LaunchDevice.set_buffer_mode wf setting copy s).2 =
      .error .backend ∧
    (LaunchDevice.set_buffer_mode wf setting copy s).1.buffer_setting =
      (if copy then 0x30 else 0x20) ||| setting.toByte ∧
    (LaunchDevice.set_buffer_mode wf setting copy s).1.sent = s.sent ∧
    ((LaunchDevice.set_buffer_mode wf setting copy s).1.is_double_buffered =
      (LaunchDevice.set_buffer_mode (fun _ => true) setting copy
          s).1.is_double_buffered) ∧
    (∀ wf2 copy2,
      (LaunchDevice.swap_buffers wf2 copy2
          (LaunchDevice.set_buffer_mode wf setting copy
            s).1).1.buffer_setting =
        (LaunchDevice.swap_buffers wf2 copy2
          (LaunchDevice.set_buffer_mode (fun _ => true) setting copy
            s).1).1.buffer_setting) := by
  refine ⟨?_, ?_, ?_, ?_, ?_⟩
  · simp [LaunchDevice.set_buffer_mode, LaunchDevice.send_ctl_msg,
      writeMessage, hfail]
  · exact set_buffer_mode_buffer_setting wf setting copy s
  · simp [LaunchDevice.set_buffer_mode, LaunchDevice.send_ctl_msg,
      writeMessage, hfail]
  · simp only [LaunchDevice.is_double_buffered,
      set_buffer_mode_buffer_setting]
  · intro wf2 copy2
    simp only [LaunchDevice.swap_buffers, set_buffer_mode_buffer_setting]
    split_ifs <;> simp only [set_buffer_mode_buffer_setting]

/-- Witness for `set_buffer_mode_no_rollback`: an always-failing transport,
`OneActive` with copy, from a fresh device. -/
theorem set_buffer_mode_no_rollback_witness :
    (LaunchDevice.set_buffer_mode (fun _ => false) .OneActive true
        LaunchDevice.new).2 = .error .backend ∧
    (LaunchDevice.set_buffer_mode (fun _ => false) .OneActive true
        LaunchDevice.new).1.buffer_setting =
      (if true then 0x30 else 0x20) ||| BufferSetting.OneActive.toByte :=
  ⟨(set_buffer_mode_no_rollback (fun _ => false) .OneActive true
      LaunchDevice.new rfl).1,
   (set_buffer_mode_no_rollback (fun _ => false) .OneActive true
      LaunchDevice.new rfl).2.1⟩
